import Mathlib

/-!
Shallow embedding of the endpoint-projection layer of
`rust-template-web-api` (src/src/lib.rs) and proofs about it.

Rust strings are modelled as `List Char`; a Rust function that can panic is
modelled as returning `Option _`, with `none` for the panic.
-/

/-- Convert a Lean string literal to the `List Char` model of Rust strings. -/
def str (s : String) : List Char := s.data

/-! ## Path template translation (`axum_path_str_to_openapi`, lib.rs:178-189) -/

/-- Model of Rust `str::split('/')`: split a character list at every `'/'`.
Like Rust's `split`, adjacent separators and separators at either end yield
empty segments (e.g. `"/a"` gives `["", "a"]`). -/
def splitOnSlashAux : List Char → List Char → List (List Char)
  | [], acc => [acc.reverse]
  | c :: rest, acc =>
    if c = '/' then acc.reverse :: splitOnSlashAux rest []
    else splitOnSlashAux rest (c :: acc)

/-- `path.split('/')` from the source. -/
def splitOnSlash (path : List Char) : List (List Char) :=
  splitOnSlashAux path []

/-- The per-segment closure of `axum_path_str_to_openapi`
(lib.rs:181-187).  The source tests `&s[0..1] == ":"`: a byte-range index
on the segment.  The segment is non-empty here (the `filter` has already
dropped empty segments), so the range is in bounds exactly when byte
offset 1 falls on a UTF-8 character boundary, i.e. when the first
character occupies a single byte; otherwise the slice panics, which we
model as `none`. -/
def segToOpenapi (s : List Char) : Option (List Char) :=
  match s with
  | [] => none
  | c :: rest =>
    if c.utf8Size = 1 then
      if c = ':' then
        some ('/' :: '{' :: (rest ++ ['}']))
      else
        some ('/' :: c :: rest)
    else
      none

/-- Model of `.collect::<String>()` over the mapped iterator: concatenates
the produced fragments, propagating a panic (`none`) from any element. -/
def collectSegs : List (Option (List Char)) → Option (List Char)
  | [] => some []
  | none :: _ => none
  | some s :: rest =>
    match collectSegs rest with
    | some t => some (s ++ t)
    | none => none

/-- `axum_path_str_to_openapi` (lib.rs:178-189): split on `'/'`, drop empty
segments, rewrite `:`-prefixed segments to brace-delimited ones, each
fragment led by `'/'`.  Returns `none` when the byte-slice `&s[0..1]`
would panic. -/
def axum_path_str_to_openapi (path : List Char) : Option (List Char) :=
  collectSegs ((((splitOnSlash path).filter (fun s => !s.isEmpty)).map segToOpenapi))

/-- Modelled from the spec: the translation rule as the spec states it —
split on `/`, drop empty segments, `:`-segments become `{rest}`, other
segments pass through unchanged, every emitted segment led by `/`.
Used only to compare the source function against the spec's words. -/
def translateSpecSeg (s : List Char) : List Char :=
  match s with
  | [] => ['/']
  | c :: rest =>
    if c = ':' then '/' :: '{' :: (rest ++ ['}']) else '/' :: c :: rest

/-- Modelled from the spec: the whole-path translation the spec describes. -/
def translateSpec (path : List Char) : List Char :=
  (((splitOnSlash path).filter (fun s => !s.isEmpty)).map translateSpecSeg).flatten

/-! ## JSON values and responses

The layer delegates serialization to `serde_json` and transport to
axum/hyper; we model JSON values as a small inductive and an HTTP
response as a status code (`Nat`, the numeric value of
`http::StatusCode`) plus a body. -/

/-- Model of a `serde_json::Value`. -/
inductive Json where
  | null
  | bool (b : Bool)
  | num (n : Int)
  | str (s : List Char)
  | arr (elems : List Json)
  | obj (fields : List (List Char × Json))

/-- Model of an `axum::response::Response`: its status code and body. -/
structure Response where
  status : Nat
  body : Json

/-! ## The `Endpoint` trait (lib.rs:94-152)

A trait implementation is modelled as a record: the associated constants
`METHOD` and `PATH`, the `handle` function, and the bound
`for<'a> &'a Self::Error: Into<StatusCode>` as an explicit
`errStatus` function.  `handle`'s `Result<Res, Err>` is `Except Err Res`. -/

/-- `utoipa::openapi::PathItemType` (= the `Method` alias, lib.rs:318). -/
inductive Method where
  | get | post | put | delete | options | head | patch | trace | connect
deriving DecidableEq

/-- An implementation of the `Endpoint` trait (lib.rs:94-110).
`Ctx` models `crate::Context`; `Req`, `Res`, `Err` are the associated
types. -/
structure Endpoint (Ctx Req Res Err : Type) where
  METHOD : Method
  PATH : List Char
  handle : Ctx → Req → Except Err Res
  errStatus : Err → Nat

/-- The orphan-rule wrapper `EndpointWrapper` (lib.rs:343-360). -/
structure EndpointWrapper (Ctx Req Res Err : Type) where
  inner : Endpoint Ctx Req Res Err

/-- The route binding produced by `Endpoint::route`
(`axum::Router::new().route(Self::PATH, method(wrapper))`, lib.rs:126):
the mounted path, the method and the wrapped handler. -/
structure RouteBinding (Ctx Req Res Err : Type) where
  path : List Char
  method : Method
  handler : EndpointWrapper Ctx Req Res Err

/-- `Endpoint::route` (lib.rs:112-127).  Every `PathItemType` variant is
dispatched to the corresponding `axum::routing` constructor except
`Connect`, whose arm is `todo!()` — a panic, modelled as `none`. -/
def Endpoint.route (ep : Endpoint Ctx Req Res Err) :
    Option (RouteBinding Ctx Req Res Err) :=
  match ep.METHOD with
  | Method.connect => none
  | _ => some { path := ep.PATH, method := ep.METHOD, handler := { inner := ep } }

/-- The incoming call environment of `Endpoint::http`, reduced to what the
function observes of it: the outcome of
`Self::Request::from_request(&mut req_parts)` for this request, and the
`Extension<SharedContext>` extension if the environment carries one.
`ExtErr` is the extractor's rejection type. -/
structure HttpRequest (ExtErr Req Ctx : Type) where
  extract_request : Except ExtErr Req
  context_extension : Option Ctx

/-- Model of axum's `Extension` extractor rejection turned into a response
(`err.into_response()` at lib.rs:143): a 500 Internal Server Error with a
diagnostic body. -/
def missingExtensionResponse : Response :=
  { status := 500, body := Json.str (str "Missing request extension") }

/-- `Endpoint::http` (lib.rs:129-151).  `resSer`/`errSer` model the
`serde::Serialize` instances of `Res`/`Err` (`response::Json` bodies);
`extErrIntoResponse` models `IntoResponse` for the request extractor's
rejection.  On success the response is built by
`response::Json(ok).into_response()`, whose status is axum's default
200 OK; on handler error the status is
`Into::<StatusCode>::into(&err)`. -/
def Endpoint.http (ep : Endpoint Ctx Req Res Err)
    (resSer : Res → Json) (errSer : Err → Json)
    (extErrIntoResponse : ExtErr → Response)
    (req : HttpRequest ExtErr Req Ctx) : Response :=
  match req.extract_request with
  | Except.error err => extErrIntoResponse err
  | Except.ok r =>
    match req.context_extension with
    | none => missingExtensionResponse
    | some ctx =>
      match ep.handle ctx r with
      | Except.ok ok => { status := 200, body := resSer ok }
      | Except.error err => { status := ep.errStatus err, body := errSer err }

/-! ## The `DocumentedEndpoint` trait (lib.rs:205-316) -/

/-- `Tag` (lib.rs:159-162). -/
structure TagT where
  name : List Char
  desc : List Char

/-- `DEFAULT_TAG` (lib.rs:173-176). -/
def DEFAULT_TAG : TagT :=
  { name := str "api", desc := str "This is the catch all tag." }

/-- An implementation of `DocumentedEndpoint` (lib.rs:205-223): the
underlying `Endpoint` plus the documentation items.  `successs` entries
are `(StatusCode, &'static str, Res)` triples (`SuccessResponse`,
lib.rs:155) and `errors` entries `(&'static str, Err)` pairs
(`ErrorResponse`, lib.rs:157).  `type_name_raw` models
`<Self as TypeNameRaw>::type_name_raw()`. -/
structure DocumentedEndpoint (Ctx Req Res Err : Type) extends
    Endpoint Ctx Req Res Err where
  type_name_raw : List Char
  TAG : TagT
  SUMMARY : List Char
  DESCRIPTION : List Char
  DEPRECATED : Bool
  successs : List (Nat × List Char × Res)
  errors : List (List Char × Err)

/-- `utoipa::openapi::path::ParameterIn`. -/
inductive ParameterIn where
  | query | path | header | cookie
deriving DecidableEq

/-- `utoipa::openapi::SchemaType` (the variants used here). -/
inductive SchemaType where
  | string | integer | number | boolean | object | array
deriving DecidableEq

/-- `utoipa::openapi::SchemaFormat` (the variants used here). -/
inductive SchemaFormat where
  | uuid | int32 | int64 | dateTime
deriving DecidableEq

/-- The parameter object built by `ParameterBuilder` (lib.rs:254-263). -/
structure Parameter where
  name : List Char
  paramIn : ParameterIn
  required : Bool
  schemaType : SchemaType
  format : Option SchemaFormat

/-- The response object built by `ResponseBuilder` (lib.rs:270-281,
287-298): a description, the `application/json` content's schema
reference name, and its example value (field `exampleVal`). -/
structure ResponseObj where
  description : List Char
  schemaRef : List Char
  exampleVal : Option Json

/-- Model of `utoipa`'s `ResponsesBuilder::response` (called at
lib.rs:268 and lib.rs:285): the responses object is a map keyed by the
status-code string, so inserting an existing key replaces that entry and
inserting a fresh key adds one.  Two status-code strings coincide exactly
when the numeric codes do, so keys are modelled by the numeric code. -/
def responsesInsert (m : List (Nat × ResponseObj)) (k : Nat) (v : ResponseObj) :
    List (Nat × ResponseObj) :=
  match m with
  | [] => [(k, v)]
  | (k', v') :: rest =>
    if k' = k then (k, v) :: rest else (k', v') :: responsesInsert rest k v

/-- The operation object built by `OperationBuilder` (lib.rs:229-302). -/
structure Operation where
  operationId : Option (List Char)
  deprecated : Bool
  summary : Option (List Char)
  description : Option (List Char)
  tags : List (List Char)
  securities : List (List Char × List (List Char))
  parameters : List Parameter
  responses : List (Nat × ResponseObj)

/-- The `utoipa::openapi::PathItem` built by
`DocumentedEndpoint::path_item`. -/
structure PathItem where
  method : Method
  operation : Operation

/-- The success-entry response object inserted at lib.rs:268-282. -/
def successResponseObj (id : List Char) (resSer : Res → Json)
    (t : Nat × List Char × Res) : ResponseObj :=
  { description := t.2.1
    schemaRef := id ++ str "Response"
    exampleVal := some (resSer t.2.2) }

/-- The error-entry response object inserted at lib.rs:285-299. -/
def errorResponseObj (id : List Char) (errSer : Err → Json)
    (p : List Char × Err) : ResponseObj :=
  { description := p.1
    schemaRef := id ++ str "Error"
    exampleVal := some (errSer p.2) }

/-- `DocumentedEndpoint::path_item` (lib.rs:225-304).  `resSer`/`errSer`
model `serde_json::to_value` on `Res`/`Err` (total here; the fallible
variant with the `unwrap` panic made explicit is `path_item_checked`
below). -/
def DocumentedEndpoint.path_item (ep : DocumentedEndpoint Ctx Req Res Err)
    (resSer : Res → Json) (errSer : Err → Json) : PathItem :=
  let id := ep.type_name_raw
  { method := ep.METHOD
    operation :=
      { operationId := some id
        deprecated := ep.DEPRECATED
        summary := if !ep.SUMMARY.isEmpty then some ep.SUMMARY else none
        description := if !ep.DESCRIPTION.isEmpty then some ep.DESCRIPTION else none
        tags := [ep.TAG.name]
        securities := [(str "api_key", [str ""])]
        parameters :=
          [{ name := str "id"
             paramIn := ParameterIn.path
             required := true
             schemaType := SchemaType.string
             format := some SchemaFormat.uuid }]
        responses :=
          let b0 := ep.successs.foldl
            (fun b t => responsesInsert b t.1 (successResponseObj id resSer t)) []
          ep.errors.foldl
            (fun b p =>
              responsesInsert b (ep.errStatus p.2) (errorResponseObj id errSer p)) b0 } }

/-- Panic-propagation plumbing for `path_item_checked`: fold one entry,
whose example must serialize (`ser a`) for the accumulated responses map
to survive; a `none` anywhere (an `unwrap` panic) is absorbing. -/
def checkedStep {α : Type} (ser : α → Option Json)
    (step : List (Nat × ResponseObj) → α → Json → List (Nat × ResponseObj))
    (b : Option (List (Nat × ResponseObj))) (a : α) :
    Option (List (Nat × ResponseObj)) :=
  match b, ser a with
  | some m, some j => some (step m a j)
  | _, _ => none

/-- `DocumentedEndpoint::path_item` with the fallibility of
`serde_json::to_value` made explicit (lib.rs:278 and lib.rs:295 call
`.unwrap()` on its result): `resSer`/`errSer` may fail, and a failing
serialization makes the corresponding `unwrap` panic, modelled as
`none`. -/
def DocumentedEndpoint.path_item_checked (ep : DocumentedEndpoint Ctx Req Res Err)
    (resSer : Res → Option Json) (errSer : Err → Option Json) : Option PathItem :=
  let id := ep.type_name_raw
  let b0 := ep.successs.foldl
    (checkedStep (fun t => resSer t.2.2)
      (fun m t j => responsesInsert m t.1
        { description := t.2.1, schemaRef := id ++ str "Response", exampleVal := some j }))
    (some [])
  let b1 := ep.errors.foldl
    (checkedStep (fun p => errSer p.2)
      (fun m p j => responsesInsert m (ep.errStatus p.2)
        { description := p.1, schemaRef := id ++ str "Error", exampleVal := some j }))
    b0
  match b1 with
  | none => none
  | some m =>
    some
      { method := ep.METHOD
        operation :=
          { operationId := some id
            deprecated := ep.DEPRECATED
            summary := if !ep.SUMMARY.isEmpty then some ep.SUMMARY else none
            description := if !ep.DESCRIPTION.isEmpty then some ep.DESCRIPTION else none
            tags := [ep.TAG.name]
            securities := [(str "api_key", [str ""])]
            parameters :=
              [{ name := str "id"
                 paramIn := ParameterIn.path
                 required := true
                 schemaType := SchemaType.string
                 format := some SchemaFormat.uuid }]
            responses := m } }

/-! ## Concrete instances used to exercise the layer -/

/-- A concrete serializer for `Nat` payloads (a `serde::Serialize`
instance model). -/
def natSer (n : Nat) : Json := Json.num (Int.ofNat n)

/-- A deserializer matching `natSer` (a `serde::Deserialize` instance
model). -/
def natDe : Json → Option Nat
  | Json.num n => if 0 ≤ n then some n.toNat else none
  | _ => none

/-- A model `IntoResponse` for a request extractor's rejection: 400 Bad
Request with a diagnostic body. -/
def extractorRejectionResponse : Unit → Response :=
  fun _ => { status := 400, body := Json.str (str "bad request") }

/-- An endpoint whose handler always succeeds with the value `5`. -/
def demoOkEndpoint : Endpoint Unit Unit Nat Nat :=
  { METHOD := Method.get
    PATH := str "/demo"
    handle := fun _ _ => Except.ok 5
    errStatus := fun n => 400 + n }

/-- An endpoint whose handler always fails with the error value `4`
(mapped to status 404 by its error-to-status conversion). -/
def demoErrEndpoint : Endpoint Unit Unit Nat Nat :=
  { METHOD := Method.get
    PATH := str "/demo-err"
    handle := fun _ _ => Except.error 4
    errStatus := fun n => 400 + n }

/-- A well-formed call environment: extraction succeeds, context present. -/
def okReq : HttpRequest Unit Unit Unit :=
  { extract_request := Except.ok (), context_extension := some () }

/-- A call environment whose request extraction fails. -/
def badExtractReq : HttpRequest Unit Unit Unit :=
  { extract_request := Except.error (), context_extension := some () }

/-- A call environment that does not carry the shared-context extension. -/
def noCtxReq : HttpRequest Unit Unit Unit :=
  { extract_request := Except.ok (), context_extension := none }

/-- A documented endpoint whose only declared success status is
201 Created: its live success responses still carry axum's Json default
status 200. -/
def createdEndpoint : DocumentedEndpoint Unit Unit Unit Unit :=
  { METHOD := Method.post
    PATH := str "/things"
    handle := fun _ _ => Except.ok ()
    errStatus := fun _ => 400
    type_name_raw := str "CreateThing"
    TAG := DEFAULT_TAG
    SUMMARY := []
    DESCRIPTION := []
    DEPRECATED := false
    successs := [(201, str "created", ())]
    errors := [] }

/-- A documented endpoint declaring two error entries that map to the
same status code 400. -/
def dupErrorEndpoint : DocumentedEndpoint Unit Unit Unit Nat :=
  { METHOD := Method.post
    PATH := str "/dup"
    handle := fun _ _ => Except.ok ()
    errStatus := fun _ => 400
    type_name_raw := str "Dup"
    TAG := DEFAULT_TAG
    SUMMARY := []
    DESCRIPTION := []
    DEPRECATED := false
    successs := []
    errors := [(str "first kind", 0), (str "second kind", 1)] }

/-- A documented endpoint whose declared success and error statuses are
pairwise distinct. -/
def docDemoEndpoint : DocumentedEndpoint Unit Unit Nat Nat :=
  { METHOD := Method.get
    PATH := str "/doc-demo"
    handle := fun _ _ => Except.ok 5
    errStatus := fun n => 400 + n
    type_name_raw := str "DocDemo"
    TAG := DEFAULT_TAG
    SUMMARY := str "demo summary"
    DESCRIPTION := []
    DEPRECATED := false
    successs := [(200, str "ok", 5)]
    errors := [(str "not found", 4)] }

/-- An endpoint whose constant method is `Connect`. -/
def connectEndpoint : Endpoint Unit Unit Unit Unit :=
  { METHOD := Method.connect
    PATH := str "/connect"
    handle := fun _ _ => Except.ok ()
    errStatus := fun _ => 500 }

/-- An endpoint whose constant method is `Get`. -/
def getEndpoint : Endpoint Unit Unit Unit Unit :=
  { METHOD := Method.get
    PATH := str "/get"
    handle := fun _ _ => Except.ok ()
    errStatus := fun _ => 500 }

/-! ## Theorems: path template translation (C1, C10) -/

/-- A segment whose first character occupies a single UTF-8 byte is
translated exactly as the spec's rule says. -/
theorem segToOpenapi_eq_spec (c : Char) (rest : List Char)
    (h1 : c.utf8Size = 1) :
    segToOpenapi (c :: rest) = some (translateSpecSeg (c :: rest)) := by
  by_cases hc : c = ':'
  · subst hc
    simp [segToOpenapi, translateSpecSeg, h1]
  · simp [segToOpenapi, translateSpecSeg, h1, hc]

/-- Collecting the mapped segments succeeds and agrees with the spec's
per-segment rule when every segment does. -/
theorem collectSegs_map_spec (segs : List (List Char))
    (h : ∀ s ∈ segs, segToOpenapi s = some (translateSpecSeg s)) :
    collectSegs (segs.map segToOpenapi) =
      some ((segs.map translateSpecSeg).flatten) := by
  induction segs with
  | nil => rfl
  | cons a t ih =>
    have ha := h a (List.mem_cons_self a t)
    have ht := ih (fun s hs => h s (List.mem_cons_of_mem a hs))
    simp [collectSegs, ha, ht]

/-- On a path all of whose non-empty segments start with a single-byte
character, the source function agrees with the spec's translation rule. -/
theorem axum_path_agrees_with_spec (path : List Char)
    (h : ∀ s ∈ (splitOnSlash path).filter (fun s => !s.isEmpty),
        s.head?.map Char.utf8Size = some 1) :
    axum_path_str_to_openapi path = some (translateSpec path) := by
  unfold axum_path_str_to_openapi translateSpec
  apply collectSegs_map_spec
  intro s hs
  have h1 := h s hs
  cases s with
  | nil => simp at h1
  | cons c rest =>
    apply segToOpenapi_eq_spec
    simpa using h1

/-- C1 (counterexample): the claim quantifies over every path template
string, but on `"/é"` — one segment whose first character occupies two
UTF-8 bytes — `axum_path_str_to_openapi` panics on the byte-slice
`&s[0..1]` (modelled `none`) instead of passing the segment through
unchanged as `"/é"`. -/
theorem axum_path_multibyte_counterexample :
    axum_path_str_to_openapi (str "/é") = none ∧
      translateSpec (str "/é") = str "/é" ∧
      axum_path_str_to_openapi (str "/é") ≠ some (translateSpec (str "/é")) := by
  refine ⟨by decide, by decide, by decide⟩

/-- C1 (amended): for every path template string whose non-empty
`/`-separated segments each begin with a single-byte character,
`axum_path_str_to_openapi` splits the input on `/`, drops empty
segments, rewrites every `:`-prefixed segment to `{rest}` and passes
every other segment through unchanged, each emitted segment prefixed
with `/`, preserving order (it equals the spec's translation rule);
on a segment whose first character is multi-byte it panics instead. -/
theorem axum_path_str_to_openapi_correct (path : List Char)
    (h : ∀ s ∈ (splitOnSlash path).filter (fun s => !s.isEmpty),
        s.head?.map Char.utf8Size = some 1) :
    axum_path_str_to_openapi path = some (translateSpec path) :=
  axum_path_agrees_with_spec path h

/-- C1 witness: the spec's own example,
`"/users/:id/resource/:resID"` to `"/users/{id}/resource/{resID}"`. -/
theorem axum_path_str_to_openapi_correct_witness :
    axum_path_str_to_openapi (str "/users/:id/resource/:resID") =
      some (str "/users/{id}/resource/{resID}") := by
  rw [axum_path_str_to_openapi_correct (str "/users/:id/resource/:resID") (by decide)]
  decide

/-- C10: on every input path whose non-empty `/`-separated segments each
begin with a single-byte (ASCII) character, `axum_path_str_to_openapi`
returns without panicking: the byte-range index `s[0..1]` on each
segment is in bounds and on a character boundary. -/
theorem axum_path_str_to_openapi_total (path : List Char)
    (h : ∀ s ∈ (splitOnSlash path).filter (fun s => !s.isEmpty),
        s.head?.map Char.utf8Size = some 1) :
    (axum_path_str_to_openapi path).isSome := by
  rw [axum_path_agrees_with_spec path h]
  rfl

/-- C10 witness: a concrete all-ASCII path. -/
theorem axum_path_str_to_openapi_total_witness :
    (axum_path_str_to_openapi (str "/a/:b")).isSome :=
  axum_path_str_to_openapi_total (str "/a/:b") (by decide)

/-! ## Theorems: `Endpoint::http` (C2-C5) -/

/-- C2 (counterexample): `createdEndpoint` documents a single success
status 201 Created, yet a successful handler invocation through
`Endpoint::http` produces status 200 (axum's `Json` default), not the
documented 201. -/
theorem http_status_ignores_documented_counterexample :
    (createdEndpoint.toEndpoint.http (fun _ => Json.null) (fun _ => Json.null)
        extractorRejectionResponse okReq).status = 200 ∧
      createdEndpoint.successs.map (fun t => t.1) = [201] ∧
      (200 : Nat) ≠ 201 := by
  refine ⟨rfl, rfl, by decide⟩

/-- C2 (amended): for every well-formed request whose extraction succeeds
and whose handler returns a success value V, `Endpoint::http` responds
with the JSON serialization of V as body (deserializing back to V) and
status 200 OK — the status axum's `Json` responder supplies, which
coincides with the documented success status only when the declared
status is 200. -/
theorem http_success_roundtrip (ep : Endpoint Ctx Req Res Err)
    (resSer : Res → Json) (resDe : Json → Option Res)
    (hser : ∀ x, resDe (resSer x) = some x)
    (errSer : Err → Json) (eir : ExtErr → Response)
    (req : HttpRequest ExtErr Req Ctx) (r : Req) (ctx : Ctx) (v : Res)
    (hex : req.extract_request = Except.ok r)
    (hctx : req.context_extension = some ctx)
    (hok : ep.handle ctx r = Except.ok v) :
    ep.http resSer errSer eir req = { status := 200, body := resSer v } ∧
      resDe (ep.http resSer errSer eir req).body = some v := by
  have hmain : ep.http resSer errSer eir req = { status := 200, body := resSer v } := by
    unfold Endpoint.http
    simp only [hex, hctx, hok]
  exact ⟨hmain, by rw [hmain]; exact hser v⟩

/-- C2 witness: the demo endpoint returning `5` responds with body
`natSer 5` and status 200. -/
theorem http_success_roundtrip_witness :
    demoOkEndpoint.http natSer natSer extractorRejectionResponse okReq =
        { status := 200, body := natSer 5 } ∧
      natDe (demoOkEndpoint.http natSer natSer extractorRejectionResponse okReq).body =
        some 5 :=
  http_success_roundtrip demoOkEndpoint natSer natDe
    (fun x => by simp [natSer, natDe])
    natSer extractorRejectionResponse okReq () () 5 rfl rfl rfl

/-- C3: when the handler returns an error value E, the response status is
exactly the declared error-to-status conversion applied to E (never a
framework default) and the body is the JSON serialization of E,
deserializing back to E. -/
theorem http_error_status_and_roundtrip (ep : Endpoint Ctx Req Res Err)
    (resSer : Res → Json) (errSer : Err → Json) (errDe : Json → Option Err)
    (hser : ∀ x, errDe (errSer x) = some x)
    (eir : ExtErr → Response)
    (req : HttpRequest ExtErr Req Ctx) (r : Req) (ctx : Ctx) (e : Err)
    (hex : req.extract_request = Except.ok r)
    (hctx : req.context_extension = some ctx)
    (herr : ep.handle ctx r = Except.error e) :
    ep.http resSer errSer eir req =
        { status := ep.errStatus e, body := errSer e } ∧
      errDe (ep.http resSer errSer eir req).body = some e := by
  have hmain : ep.http resSer errSer eir req =
      { status := ep.errStatus e, body := errSer e } := by
    unfold Endpoint.http
    simp only [hex, hctx, herr]
  exact ⟨hmain, by rw [hmain]; exact hser e⟩

/-- C3 witness: the demo endpoint failing with error value `4` responds
with status `400 + 4 = 404` and body `natSer 4`. -/
theorem http_error_status_and_roundtrip_witness :
    demoErrEndpoint.http natSer natSer extractorRejectionResponse okReq =
        { status := 404, body := natSer 4 } ∧
      natDe (demoErrEndpoint.http natSer natSer extractorRejectionResponse okReq).body =
        some 4 :=
  http_error_status_and_roundtrip demoErrEndpoint natSer natSer natDe
    (fun x => by simp [natSer, natDe])
    extractorRejectionResponse okReq () () 4 rfl rfl rfl

/-- C4: when request extraction fails, `Endpoint::http` returns the
extractor's rejection converted into a response, and it does so whatever
handler the endpoint carries — the handler is never invoked. -/
theorem http_extraction_failure_skips_handler (ep : Endpoint Ctx Req Res Err)
    (resSer : Res → Json) (errSer : Err → Json) (eir : ExtErr → Response)
    (req : HttpRequest ExtErr Req Ctx) (e : ExtErr)
    (hex : req.extract_request = Except.error e) :
    ep.http resSer errSer eir req = eir e ∧
      ∀ f : Ctx → Req → Except Err Res,
        ({ ep with handle := f } : Endpoint Ctx Req Res Err).http
          resSer errSer eir req = eir e := by
  constructor
  · unfold Endpoint.http
    simp only [hex]
  · intro f
    unfold Endpoint.http
    simp only [hex]

/-- C4 witness: a request whose extraction fails yields the extractor's
400 response from the demo endpoint. -/
theorem http_extraction_failure_skips_handler_witness :
    demoOkEndpoint.http natSer natSer extractorRejectionResponse badExtractReq =
        extractorRejectionResponse () ∧
      ∀ f : Unit → Unit → Except Nat Nat,
        ({ demoOkEndpoint with handle := f } : Endpoint Unit Unit Nat Nat).http
          natSer natSer extractorRejectionResponse badExtractReq =
          extractorRejectionResponse () :=
  http_extraction_failure_skips_handler demoOkEndpoint natSer natSer
    extractorRejectionResponse badExtractReq () rfl

/-- C5: when the call environment lacks the shared-context extension
(and extraction succeeded), `Endpoint::http` returns the extension
rejection's error response — a 500, not a panic — and it does so
whatever handler the endpoint carries: the handler is never invoked. -/
theorem http_missing_context_skips_handler (ep : Endpoint Ctx Req Res Err)
    (resSer : Res → Json) (errSer : Err → Json) (eir : ExtErr → Response)
    (req : HttpRequest ExtErr Req Ctx) (r : Req)
    (hex : req.extract_request = Except.ok r)
    (hctx : req.context_extension = none) :
    ep.http resSer errSer eir req = missingExtensionResponse ∧
      400 ≤ (ep.http resSer errSer eir req).status ∧
      ∀ f : Ctx → Req → Except Err Res,
        ({ ep with handle := f } : Endpoint Ctx Req Res Err).http
          resSer errSer eir req = missingExtensionResponse := by
  have hmain : ep.http resSer errSer eir req = missingExtensionResponse := by
    unfold Endpoint.http
    simp only [hex, hctx]
  refine ⟨hmain, by rw [hmain]; decide, ?_⟩
  intro f
  unfold Endpoint.http
  rw [hex, hctx]

/-- C5 witness: a context-less environment makes the demo endpoint answer
with the 500 missing-extension response. -/
theorem http_missing_context_skips_handler_witness :
    demoOkEndpoint.http natSer natSer extractorRejectionResponse noCtxReq =
        missingExtensionResponse ∧
      400 ≤ (demoOkEndpoint.http natSer natSer extractorRejectionResponse noCtxReq).status ∧
      ∀ f : Unit → Unit → Except Nat Nat,
        ({ demoOkEndpoint with handle := f } : Endpoint Unit Unit Nat Nat).http
          natSer natSer extractorRejectionResponse noCtxReq =
          missingExtensionResponse :=
  http_missing_context_skips_handler demoOkEndpoint natSer natSer
    extractorRejectionResponse noCtxReq () rfl rfl

/-! ## Theorems: `Endpoint::route` (C7) -/

/-- C7 (counterexample): for an endpoint whose constant method is
`Connect`, `Endpoint::route` hits the `todo!()` arm and panics (modelled
`none`) instead of returning a route binding. -/
theorem route_connect_panics_counterexample :
    connectEndpoint.route = none := rfl

/-- C7 (amended): for every endpoint whose constant method is not
`Connect`, `Endpoint::route` returns a route binding mounting the
endpoint's path and method to its wrapped handler without panicking; for
`Connect` the `todo!()` arm makes the call process-fatal. -/
theorem route_mounts_path_method_handler (ep : Endpoint Ctx Req Res Err)
    (h : ep.METHOD ≠ Method.connect) :
    ep.route =
      some { path := ep.PATH, method := ep.METHOD, handler := { inner := ep } } := by
  obtain ⟨m, p, hd, es⟩ := ep
  cases m <;> first
    | rfl
    | exact absurd rfl h

/-- C7 witness: a GET endpoint is mounted at its path with its wrapped
handler. -/
theorem route_mounts_path_method_handler_witness :
    getEndpoint.route =
      some { path := getEndpoint.PATH, method := getEndpoint.METHOD,
             handler := { inner := getEndpoint } } :=
  route_mounts_path_method_handler getEndpoint (by decide)

/-! ## Theorems: `DocumentedEndpoint::path_item` (C6, C8, C9) -/

/-- C8: for every documented endpoint, whatever its path template, the
path item carries an operation id equal to the endpoint's type name, the
`api_key` security requirement, and one required path parameter named
`id` of type string with UUID format; the summary and description are
present exactly when the declared `SUMMARY` and `DESCRIPTION` constants
are non-empty. -/
theorem path_item_fixed_fields (ep : DocumentedEndpoint Ctx Req Res Err)
    (resSer : Res → Json) (errSer : Err → Json) :
    (ep.path_item resSer errSer).operation.operationId = some ep.type_name_raw ∧
      (ep.path_item resSer errSer).operation.securities =
        [(str "api_key", [str ""])] ∧
      (ep.path_item resSer errSer).operation.parameters =
        [{ name := str "id"
           paramIn := ParameterIn.path
           required := true
           schemaType := SchemaType.string
           format := some SchemaFormat.uuid }] ∧
      ((ep.path_item resSer errSer).operation.summary.isSome ↔
        ¬ ep.SUMMARY.isEmpty) ∧
      ((ep.path_item resSer errSer).operation.description.isSome ↔
        ¬ ep.DESCRIPTION.isEmpty) := by
  refine ⟨rfl, rfl, rfl, ?_, ?_⟩
  · show (if !ep.SUMMARY.isEmpty then some ep.SUMMARY else none).isSome ↔
      ¬ ep.SUMMARY.isEmpty
    by_cases h : ep.SUMMARY.isEmpty <;> simp [h]
  · show (if !ep.DESCRIPTION.isEmpty then some ep.DESCRIPTION else none).isSome ↔
      ¬ ep.DESCRIPTION.isEmpty
    by_cases h : ep.DESCRIPTION.isEmpty <;> simp [h]

/-- Inserting a fresh status key into the responses map appends an entry. -/
theorem responsesInsert_of_not_mem (m : List (Nat × ResponseObj)) (k : Nat)
    (v : ResponseObj) (h : k ∉ m.map Prod.fst) :
    responsesInsert m k v = m ++ [(k, v)] := by
  induction m with
  | nil => rfl
  | cons a t ih =>
    obtain ⟨k', v'⟩ := a
    simp only [List.map_cons, List.mem_cons] at h
    push_neg at h
    obtain ⟨h1, h2⟩ := h
    simp [responsesInsert, Ne.symm h1, ih h2]

/-- Folding `responsesInsert` over entries whose keys are all fresh and
pairwise distinct appends them in order. -/
theorem foldl_responsesInsert_append {α : Type} (key : α → Nat)
    (val : α → ResponseObj) (l : List α) (m : List (Nat × ResponseObj))
    (h : (m.map Prod.fst ++ l.map key).Nodup) :
    l.foldl (fun b a => responsesInsert b (key a) (val a)) m =
      m ++ l.map (fun a => (key a, val a)) := by
  induction l generalizing m with
  | nil => simp
  | cons a t ih =>
    rw [List.nodup_append] at h
    obtain ⟨hm, hl, hdis⟩ := h
    have hfresh : key a ∉ m.map Prod.fst :=
      fun hmem => hdis hmem (by simp)
    rw [List.foldl_cons, responsesInsert_of_not_mem m (key a) (val a) hfresh, ih]
    · simp
    · rw [List.nodup_append]
      refine ⟨?_, ?_, ?_⟩
      · simp only [List.map_append, List.map_cons, List.map_nil]
        rw [List.nodup_append]
        refine ⟨hm, by simp, ?_⟩
        intro x hx hx1
        simp only [List.mem_singleton] at hx1
        subst hx1
        exact hfresh hx
      · simp only [List.map_cons] at hl
        exact hl.of_cons
      · intro x hx hxt
        simp only [List.map_append, List.map_cons, List.map_nil, List.mem_append,
          List.mem_singleton] at hx
        rcases hx with hx | hx
        · exact hdis hx (List.mem_cons_of_mem _ hxt)
        · subst hx
          simp only [List.map_cons] at hl
          exact (List.nodup_cons.mp hl).1 hxt

/-- C6 (counterexample): `dupErrorEndpoint` declares two error entries,
but both map to status 400, so the responses map — keyed by the status
string — retains only the later entry: one response entry for two
declared entries, and the first declared example is gone. -/
theorem path_item_dup_status_counterexample :
    (dupErrorEndpoint.path_item (fun _ => Json.null) natSer).operation.responses =
        [(400, { description := str "second kind"
                 schemaRef := str "DupError"
                 exampleVal := some (natSer 1) })] ∧
      (dupErrorEndpoint.path_item (fun _ => Json.null) natSer).operation.responses.length = 1 ∧
      dupErrorEndpoint.errors.length = 2 := by
  refine ⟨rfl, rfl, rfl⟩

/-- C6 (amended): for every documented endpoint whose declared success
statuses and error statuses are pairwise distinct, the responses map
built by `path_item` contains exactly one entry per declared success
entry and one per declared error entry, each carrying as example the
JSON serialization of the declared value; when two declared entries
share a status code the later overwrites the earlier. -/
theorem path_item_one_entry_per_declared (ep : DocumentedEndpoint Ctx Req Res Err)
    (resSer : Res → Json) (errSer : Err → Json)
    (h : (ep.successs.map (fun t => t.1) ++
          ep.errors.map (fun p => ep.errStatus p.2)).Nodup) :
    (ep.path_item resSer errSer).operation.responses =
        ep.successs.map
          (fun t => (t.1, successResponseObj ep.type_name_raw resSer t)) ++
          ep.errors.map
            (fun p => (ep.errStatus p.2, errorResponseObj ep.type_name_raw errSer p)) ∧
      (ep.path_item resSer errSer).operation.responses.length =
        ep.successs.length + ep.errors.length := by
  have e1 : ep.successs.foldl
      (fun b t => responsesInsert b t.1 (successResponseObj ep.type_name_raw resSer t))
      [] =
      [] ++ ep.successs.map
        (fun t => (t.1, successResponseObj ep.type_name_raw resSer t)) :=
    foldl_responsesInsert_append (fun t => t.1)
      (successResponseObj ep.type_name_raw resSer) ep.successs []
      (by simpa using (List.nodup_append.mp h).1)
  have e2 : ep.errors.foldl
      (fun b p =>
        responsesInsert b (ep.errStatus p.2) (errorResponseObj ep.type_name_raw errSer p))
      (ep.successs.map
        (fun t => (t.1, successResponseObj ep.type_name_raw resSer t))) =
      ep.successs.map
        (fun t => (t.1, successResponseObj ep.type_name_raw resSer t)) ++
        ep.errors.map
          (fun p => (ep.errStatus p.2, errorResponseObj ep.type_name_raw errSer p)) :=
    foldl_responsesInsert_append (fun p => ep.errStatus p.2)
      (errorResponseObj ep.type_name_raw errSer) ep.errors _
      (by simpa [List.map_map, Function.comp] using h)
  have hmain : (ep.path_item resSer errSer).operation.responses =
      ep.successs.map
        (fun t => (t.1, successResponseObj ep.type_name_raw resSer t)) ++
        ep.errors.map
          (fun p => (ep.errStatus p.2, errorResponseObj ep.type_name_raw errSer p)) := by
    show ep.errors.foldl
        (fun b p =>
          responsesInsert b (ep.errStatus p.2) (errorResponseObj ep.type_name_raw errSer p))
        (ep.successs.foldl
          (fun b t =>
            responsesInsert b t.1 (successResponseObj ep.type_name_raw resSer t))
          []) = _
    rw [e1, List.nil_append]
    exact e2
  refine ⟨hmain, ?_⟩
  rw [hmain]
  simp

/-- C6 witness: the demo documented endpoint declares one success (200)
and one error (404) entry; its responses map has exactly those two
entries with the serialized examples. -/
theorem path_item_one_entry_per_declared_witness :
    (docDemoEndpoint.path_item natSer natSer).operation.responses =
        docDemoEndpoint.successs.map
          (fun t => (t.1, successResponseObj docDemoEndpoint.type_name_raw natSer t)) ++
          docDemoEndpoint.errors.map
            (fun p => (docDemoEndpoint.errStatus p.2,
              errorResponseObj docDemoEndpoint.type_name_raw natSer p)) ∧
      (docDemoEndpoint.path_item natSer natSer).operation.responses.length =
        docDemoEndpoint.successs.length + docDemoEndpoint.errors.length :=
  path_item_one_entry_per_declared docDemoEndpoint natSer natSer (by decide)

/-- A `checkedStep` fold survives (no `unwrap` panics) when the
accumulator is alive and every entry's example serializes. -/
theorem foldl_checkedStep_isSome {α : Type} (ser : α → Option Json)
    (step : List (Nat × ResponseObj) → α → Json → List (Nat × ResponseObj))
    (l : List α) (b : Option (List (Nat × ResponseObj)))
    (hb : b.isSome) (h : ∀ a ∈ l, (ser a).isSome) :
    (l.foldl (checkedStep ser step) b).isSome := by
  induction l generalizing b with
  | nil => exact hb
  | cons a t ih =>
    rw [List.foldl_cons]
    apply ih
    · obtain ⟨m, hm⟩ := Option.isSome_iff_exists.mp hb
      obtain ⟨j, hj⟩ := Option.isSome_iff_exists.mp (h a (List.mem_cons_self a t))
      simp [checkedStep, hm, hj]
    · exact fun x hx => h x (List.mem_cons_of_mem a hx)

/-- C9: for every documented endpoint whose declared success and error
example values are JSON-serializable, `path_item` completes without
panicking: none of the `serde_json::to_value(..).unwrap()` calls on the
declared examples reaches the panic branch. -/
theorem path_item_no_unwrap_panic (ep : DocumentedEndpoint Ctx Req Res Err)
    (resSer : Res → Option Json) (errSer : Err → Option Json)
    (hs : ∀ t ∈ ep.successs, (resSer t.2.2).isSome)
    (he : ∀ p ∈ ep.errors, (errSer p.2).isSome) :
    (ep.path_item_checked resSer errSer).isSome := by
  have h0 : (ep.successs.foldl
      (checkedStep (fun t => resSer t.2.2)
        (fun m t j => responsesInsert m t.1
          { description := t.2.1
            schemaRef := ep.type_name_raw ++ str "Response"
            exampleVal := some j }))
      (some [])).isSome :=
    foldl_checkedStep_isSome _ _ ep.successs (some []) rfl
      (fun t ht => hs t ht)
  have h1 : (ep.errors.foldl
      (checkedStep (fun p => errSer p.2)
        (fun m p j => responsesInsert m (ep.errStatus p.2)
          { description := p.1
            schemaRef := ep.type_name_raw ++ str "Error"
            exampleVal := some j }))
      (ep.successs.foldl
        (checkedStep (fun t => resSer t.2.2)
          (fun m t j => responsesInsert m t.1
            { description := t.2.1
              schemaRef := ep.type_name_raw ++ str "Response"
              exampleVal := some j }))
        (some []))).isSome :=
    foldl_checkedStep_isSome _ _ ep.errors _ h0 (fun p hp => he p hp)
  obtain ⟨m, hm⟩ := Option.isSome_iff_exists.mp h1
  unfold DocumentedEndpoint.path_item_checked
  simp only [hm]
  rfl

/-- C9 witness: the demo documented endpoint's examples all serialize, so
its checked path item is produced. -/
theorem path_item_no_unwrap_panic_witness :
    (docDemoEndpoint.path_item_checked (fun n => some (natSer n))
      (fun n => some (natSer n))).isSome :=
  path_item_no_unwrap_panic docDemoEndpoint (fun n => some (natSer n))
    (fun n => some (natSer n)) (by decide) (by decide)
